import Mathlib

/-!
Shallow embedding of the gdbproxy sources (`src/gdbproxy/packet.py`,
`src/gdbproxy/dissector.py`, `src/gdbproxy/constants.py`) together with
proofs about the embedded code.

Modelling conventions:
* a Python `str` is a `List Char` of code points; packet payloads are decoded
  with latin-1, so every byte 0..255 maps to the code point of the same value;
* a Python `bytes` is a `List Nat` whose members are below 256;
* Python's unbounded `int` is `Int`;
* code that can raise `ValueError` is modelled in `Except PyErr`;
* the behaviour of Python builtins (`int(s, 16)`, `str.split`, `str.strip`,
  `bytes.fromhex`, `str.lower`, `re` character classes, UTF-8 decoding with
  `errors="replace"`) follows CPython 3.11 and is restricted to the latin-1
  code-point range that payload strings can contain.
-/

namespace GdbProxy

/-- A Python `str`, as a list of code points. -/
abbrev PyStr := List Char

/-- Turn a Lean string literal into the `List Char` model of a Python `str`. -/
def pys (s : String) : PyStr := s.data

/-- Python `ValueError` — the only exception reachable in the modelled code. -/
inductive PyErr where
  | valueError
  deriving DecidableEq, Repr

deriving instance DecidableEq for Except

/-- Decimal rendering of a natural number, as a Python f-string renders it. -/
def natRepr (n : Nat) : PyStr := (Nat.repr n).data

/-- Decimal rendering of a Python `int` (possibly negative). -/
def intRepr (i : Int) : PyStr :=
  if i < 0 then '-' :: natRepr i.natAbs else natRepr i.natAbs

/-- Value of an ASCII hex digit (`[0-9a-fA-F]`), `none` otherwise. -/
def hexDigitVal (c : Char) : Option Nat :=
  if '0' ≤ c ∧ c ≤ '9' then some (c.toNat - 48)
  else if 'a' ≤ c ∧ c ≤ 'f' then some (c.toNat - 87)
  else if 'A' ≤ c ∧ c ≤ 'F' then some (c.toNat - 55)
  else none

/-- Whether `c` is in `"0123456789abcdefABCDEF"`. -/
def isHexChar (c : Char) : Bool := (hexDigitVal c).isSome

/-- Code points stripped by Python's `int(str, base)` around the literal
(CPython 3.11, latin-1 range): tab, LF, VT, FF, CR, space, U+0085, U+00A0. -/
def pyIntSpace (c : Char) : Bool := [9, 10, 11, 12, 13, 32, 133, 160].contains c.toNat

/-- Strip `pyIntSpace` characters from both ends. -/
def pyStripIntSpaces (s : PyStr) : PyStr :=
  ((s.dropWhile pyIntSpace).reverse.dropWhile pyIntSpace).reverse

/-- Digit part of a Python base-16 integer literal after the first digit:
hex digits, single underscores allowed between digits, full consumption. -/
def hexDigitsRun (acc : Nat) : PyStr → Option Nat
  | [] => some acc
  | c :: rest =>
    if c = '_' then
      match rest with
      | c2 :: rest2 => (hexDigitVal c2).bind fun v => hexDigitsRun (16 * acc + v) rest2
      | [] => none
    else (hexDigitVal c).bind fun v => hexDigitsRun (16 * acc + v) rest

/-- Whole digit part of a Python base-16 literal (no sign, no `0x` mark):
at least one digit, no leading underscore. -/
def hexNatOfDigits : PyStr → Option Nat
  | [] => none
  | c :: rest =>
    if c = '_' then none
    else (hexDigitVal c).bind fun v => hexDigitsRun v rest

/-- Drop an optional `0x`/`0X` mark, together with one underscore directly
after it, as Python's base-16 literal grammar permits. -/
def dropHexMark (s : PyStr) : PyStr :=
  match s with
  | '0' :: c :: rest =>
    if c = 'x' ∨ c = 'X' then
      match rest with
      | '_' :: r => r
      | r => r
    else s
  | _ => s

/-- Python `int(s, 16)`: optional surrounding whitespace, optional sign,
optional `0x` mark, then underscore-separated hex digits.  `none` models
`ValueError`. -/
def pyIntHex16 (s : PyStr) : Option Int :=
  let t := pyStripIntSpaces s
  let signAndRest : Int × PyStr :=
    match t with
    | '+' :: r => (1, r)
    | '-' :: r => (-1, r)
    | r => (1, r)
  match hexNatOfDigits (dropHexMark signAndRest.2) with
  | some n => some (signAndRest.1 * (n : Int))
  | none => none

/-- `int(bs.decode("ascii"), 16)` on a byte string: the decode raises unless
every byte is below 128; then parse as a base-16 literal. -/
def pyIntHexAscii (bs : List Nat) : Option Int :=
  if bs.all (· < 128) then pyIntHex16 (bs.map Char.ofNat) else none

/-- Python `bytes.fromhex` (CPython 3.11): ASCII whitespace may separate the
two-digit groups; each group is two adjacent hex digits; `none` models
`ValueError`. -/
def pyFromHex : PyStr → Option (List Nat)
  | [] => some []
  | c :: rest =>
    if [9, 10, 11, 12, 13, 32].contains c.toNat then pyFromHex rest
    else
      match rest with
      | c2 :: rest2 =>
        match hexDigitVal c, hexDigitVal c2 with
        | some h, some l => (pyFromHex rest2).map fun bs => (16 * h + l) :: bs
        | _, _ => none
      | [] => none

/-- The replacement character U+FFFD. -/
def replChar : Char := Char.ofNat 0xFFFD

/-- UTF-8 continuation byte test. -/
def utf8Cont (b : Nat) : Bool := 128 ≤ b && b ≤ 191

/-- Second-byte range of a UTF-8 sequence headed by `b` (excludes overlong
encodings and surrogates, as CPython's decoder does). -/
def utf8Second (b b2 : Nat) : Bool :=
  if b = 224 then 160 ≤ b2 && b2 ≤ 191
  else if b = 237 then 128 ≤ b2 && b2 ≤ 159
  else if b = 240 then 144 ≤ b2 && b2 ≤ 191
  else if b = 244 then 128 ≤ b2 && b2 ≤ 143
  else utf8Cont b2

/-- How many continuation bytes after the lead byte `b` belong to the current
UTF-8 sequence, valid or not (the length of the maximal subpart that CPython's
`errors="replace"` handling consumes for one output character, minus one). -/
def utf8TailLen (b : Nat) (rest : List Nat) : Nat :=
  if b < 128 then 0
  else if 194 ≤ b && b ≤ 223 then
    match rest with
    | b2 :: _ => if utf8Cont b2 then 1 else 0
    | [] => 0
  else if 224 ≤ b && b ≤ 239 then
    match rest with
    | b2 :: rest2 =>
      if utf8Second b b2 then
        match rest2 with
        | b3 :: _ => if utf8Cont b3 then 2 else 1
        | [] => 1
      else 0
    | [] => 0
  else if 240 ≤ b && b ≤ 244 then
    match rest with
    | b2 :: rest2 =>
      if utf8Second b b2 then
        match rest2 with
        | b3 :: rest3 =>
          if utf8Cont b3 then
            match rest3 with
            | b4 :: _ => if utf8Cont b4 then 3 else 2
            | [] => 2
          else 1
        | [] => 1
      else 0
    | [] => 0
  else 0

/-- The character decoded from the sequence starting at lead byte `b`
(U+FFFD when the sequence is not a complete valid one). -/
def utf8Emit (b : Nat) (rest : List Nat) : Char :=
  if b < 128 then Char.ofNat b
  else if 194 ≤ b && b ≤ 223 then
    match rest with
    | b2 :: _ =>
      if utf8Cont b2 then Char.ofNat ((b - 192) * 64 + (b2 - 128)) else replChar
    | [] => replChar
  else if 224 ≤ b && b ≤ 239 then
    match rest with
    | b2 :: b3 :: _ =>
      if utf8Second b b2 && utf8Cont b3 then
        Char.ofNat ((b - 224) * 4096 + (b2 - 128) * 64 + (b3 - 128))
      else replChar
    | _ => replChar
  else if 240 ≤ b && b ≤ 244 then
    match rest with
    | b2 :: b3 :: b4 :: _ =>
      if utf8Second b b2 && utf8Cont b3 && utf8Cont b4 then
        Char.ofNat ((b - 240) * 262144 + (b2 - 128) * 4096 + (b3 - 128) * 64 +
          (b4 - 128))
      else replChar
    | _ => replChar
  else replChar

/-- Worker for `utf8DecodeReplace`, structurally recursive on a fuel counter
so that it reduces definitionally.  Each step consumes at least one byte, so
fuel equal to the input length never runs out. -/
def utf8DecodeReplaceAux : Nat → List Nat → List Char
  | _, [] => []
  | 0, _ :: _ => []
  | fuel + 1, b :: rest =>
    utf8Emit b rest :: utf8DecodeReplaceAux fuel (rest.drop (utf8TailLen b rest))

/-- Python `bytes.decode("utf-8", errors="replace")` (CPython: one U+FFFD per
maximal invalid subpart; never fails). -/
def utf8DecodeReplace (l : List Nat) : List Char := utf8DecodeReplaceAux l.length l

/-- Python `bytes.decode("ascii")`: strict, raises unless all bytes < 128. -/
def asciiDecode (bs : List Nat) : Option PyStr :=
  if bs.all (· < 128) then some (bs.map Char.ofNat) else none

/-- Python `str.lower`, restricted to the latin-1 code points payload strings
can contain (`A`-`Z` and `À`-`Þ` except `×` gain 32). -/
def pyLower (c : Char) : Char :=
  let n := c.toNat
  if 65 ≤ n ∧ n ≤ 90 then Char.ofNat (n + 32)
  else if 192 ≤ n ∧ n ≤ 222 ∧ n ≠ 215 then Char.ofNat (n + 32)
  else c

/-- Code points matched by `\s` and stripped by `str.strip` (latin-1 range). -/
def pyStrSpace (c : Char) : Bool :=
  [9, 10, 11, 12, 13, 28, 29, 30, 31, 32, 133, 160].contains c.toNat

/-- Python `str.lstrip()`. -/
def pyLStrip (s : PyStr) : PyStr := s.dropWhile pyStrSpace

/-- Code points matched by `\w` in Python's `re` (latin-1 range:
`[0-9A-Za-z_]` plus the latin-1 letters and numeric signs). -/
def isPyWord (c : Char) : Bool :=
  let n := c.toNat
  (48 ≤ n && n ≤ 57) || (65 ≤ n && n ≤ 90) || n == 95 || (97 ≤ n && n ≤ 122) ||
  n == 170 || n == 178 || n == 179 || n == 181 || n == 185 || n == 186 ||
  n == 188 || n == 189 || n == 190 ||
  (192 ≤ n && n ≤ 255 && n != 215 && n != 247)

/-- Python `s.split(sep)` for a one-character separator: splits at every
occurrence and keeps empty parts; `"".split(sep) == [""]`. -/
def pySplit (sep : Char) : PyStr → List PyStr
  | [] => [[]]
  | c :: rest =>
    if c = sep then [] :: pySplit sep rest
    else
      match pySplit sep rest with
      | h :: t => (c :: h) :: t
      | [] => [[c]]

/-- Python `s.split(sep, 1)`: the part before the first separator and, when
the separator occurs, the part after it. -/
def pySplitOnce (sep : Char) : PyStr → PyStr × Option PyStr
  | [] => ([], none)
  | c :: rest =>
    if c = sep then ([], some rest)
    else
      let r := pySplitOnce sep rest
      (c :: r.1, r.2)

/-- Python `sep.join(parts)`. -/
def pyJoin (sep : PyStr) (parts : List PyStr) : PyStr := List.intercalate sep parts

/-- Python `s.rstrip(";")`: drop every trailing `;`. -/
def rstripSemis (s : PyStr) : PyStr := (s.reverse.dropWhile (· = ';')).reverse

/-- Python truthiness of a string. -/
def pyTruthy (s : PyStr) : Bool := s ≠ []

/-! ### constants.py -/

/-- `SIGNALS` from constants.py (keys as Python ints). -/
def SIGNALS : List (Int × String) :=
  [(1, "SIGHUP"), (2, "SIGINT"), (3, "SIGQUIT"), (4, "SIGILL"), (5, "SIGTRAP"),
   (6, "SIGABRT"), (7, "SIGBUS"), (8, "SIGFPE"), (9, "SIGKILL"), (10, "SIGUSR1"),
   (11, "SIGSEGV"), (12, "SIGUSR2"), (13, "SIGPIPE"), (14, "SIGALRM"),
   (15, "SIGTERM"), (16, "SIGSTKFLT"), (17, "SIGCHLD"), (18, "SIGCONT"),
   (19, "SIGSTOP"), (20, "SIGTSTP"), (21, "SIGTTIN"), (22, "SIGTTOU"),
   (23, "SIGURG"), (24, "SIGXCPU"), (25, "SIGXFSZ"), (26, "SIGVTALRM"),
   (27, "SIGPROF"), (28, "SIGWINCH"), (29, "SIGIO"), (30, "SIGPWR"),
   (31, "SIGSYS")]

/-- `SIGNALS.get(sig, f"signal {sig}")`. -/
def signalsGet (sig : Int) : PyStr :=
  match SIGNALS.lookup sig with
  | some s => s.data
  | none => pys "signal " ++ intRepr sig

/-- `BREAKPOINT_TYPES` from constants.py. -/
def BREAKPOINT_TYPES : List (Nat × String) :=
  [(0, "software breakpoint"), (1, "hardware breakpoint"), (2, "write watchpoint"),
   (3, "read watchpoint"), (4, "access watchpoint")]

/-- `BREAKPOINT_TYPES.get(t, f"type {bp_type}")` where `bp_type` is the
original one-character string. -/
def breakpointTypesGet (t : Nat) (bpType : PyStr) : PyStr :=
  match BREAKPOINT_TYPES.lookup t with
  | some s => s.data
  | none => pys "type " ++ bpType

/-- `VCONT_ACTIONS` from constants.py, keyed by one-character strings. -/
def VCONT_ACTIONS : List (Char × String) :=
  [('c', "continue"), ('C', "continue with signal"), ('s', "step"),
   ('S', "step with signal"), ('t', "stop"), ('r', "range step")]

/-- `VCONT_ACTIONS.get(act_base, act)` where `act_base` is `act[0]` or `""`. -/
def vcontActionsGet (actBase : PyStr) (dflt : PyStr) : PyStr :=
  match actBase with
  | [c] =>
    match VCONT_ACTIONS.lookup c with
    | some s => s.data
    | none => dflt
  | _ => dflt

/-! ### packet.py -/

/-- `PacketType` from packet.py. -/
inductive PacketType where
  | ack
  | nack
  | interrupt
  | packet
  | notification
  deriving DecidableEq, Repr

/-- `Packet` from packet.py.  `checksum` is a Python int (the parser stores
whatever `int(chars, 16)` produced, which is not always in 0..255). -/
structure Packet where
  type : PacketType
  data : List Nat := []
  checksum : Int := 0
  raw : List Nat := []
  valid_checksum : Bool := true
  deriving DecidableEq, Repr

/-- `Packet.data_str`: decode latin-1 (total, so the except branch of the
source is unreachable). -/
def dataStr (bs : List Nat) : PyStr := bs.map Char.ofNat

/-- `compute_checksum`: sum of bytes mod 256. -/
def compute_checksum (data : List Nat) : Nat := data.sum % 256

/-- `unescape` from packet.py. -/
def unescape : List Nat → List Nat
  | [] => []
  | b :: rest =>
    if b = 125 then
      match rest with
      | b2 :: rest2 => (Nat.xor b2 32) :: unescape rest2
      | [] => [b]
    else b :: unescape rest

/-- `ParserState` from packet.py. -/
inductive ParserState where
  | idle
  | inPacket
  | checksum1
  | checksum2
  deriving DecidableEq, Repr

/-- The mutable fields of `PacketParser` (the source also initializes an
unused `_packet_start` field that is never read; it is omitted). -/
structure PacketParser where
  state : ParserState
  buffer : List Nat
  checksumChars : List Nat
  isNotification : Bool
  rawBuffer : List Nat
  deriving DecidableEq, Repr

/-- A freshly constructed `PacketParser`. -/
def PacketParser.init : PacketParser := ⟨.idle, [], [], false, []⟩

/-- `PacketParser._process_byte` (covering the four `_handle_*` methods). -/
def processByte (p : PacketParser) (b : Nat) : PacketParser × Option Packet :=
  match p.state with
  | .idle =>
    if b = 43 then (p, some { type := .ack, raw := [b] })
    else if b = 45 then (p, some { type := .nack, raw := [b] })
    else if b = 3 then (p, some { type := .interrupt, raw := [b] })
    else if b = 36 then
      ({ p with
          state := .inPacket, buffer := [], rawBuffer := [b],
          isNotification := false }, none)
    else if b = 37 then
      ({ p with
          state := .inPacket, buffer := [], rawBuffer := [b],
          isNotification := true }, none)
    else (p, none)
  | .inPacket =>
    if b = 35 then
      ({ p with
          state := .checksum1, rawBuffer := p.rawBuffer ++ [b],
          checksumChars := [] }, none)
    else
      ({ p with rawBuffer := p.rawBuffer ++ [b], buffer := p.buffer ++ [b] }, none)
  | .checksum1 =>
    ({ p with
        state := .checksum2, rawBuffer := p.rawBuffer ++ [b],
        checksumChars := p.checksumChars ++ [b] }, none)
  | .checksum2 =>
    let raw := p.rawBuffer ++ [b]
    let chars := p.checksumChars ++ [b]
    let checksum : Int :=
      match pyIntHexAscii chars with
      | some v => v
      | none => 0
    let valid : Bool := decide ((compute_checksum p.buffer : Int) = checksum)
    ({ p with state := .idle, rawBuffer := raw, checksumChars := chars },
     some { type := if p.isNotification then .notification else .packet,
            data := p.buffer, checksum := checksum, raw := raw,
            valid_checksum := valid })

/-- `PacketParser.feed`: feed bytes one by one, collecting emitted frames. -/
def feed (p : PacketParser) : List Nat → PacketParser × List Packet
  | [] => (p, [])
  | b :: rest =>
    let pr := processByte p b
    let next := feed pr.1 rest
    (next.1, (match pr.2 with | some f => [f] | none => []) ++ next.2)

/-- Feed a list of chunks in order into one parser. -/
def feedChunks (p : PacketParser) : List (List Nat) → PacketParser × List Packet
  | [] => (p, [])
  | c :: cs =>
    let r := feed p c
    let next := feedChunks r.1 cs
    (next.1, r.2 ++ next.2)

/-- Run a fresh parser over a byte sequence. -/
def runParser (B : List Nat) : PacketParser × List Packet :=
  feed PacketParser.init B

/-- The latin-1 bytes of a Lean string literal, for concrete wire inputs. -/
def bytesOf (s : String) : List Nat := s.data.map Char.toNat

/-! ### dissector.py — response-side helpers -/

/-- `Dissector._dissect_notification`. -/
def dissectNotification (data : PyStr) : PyStr :=
  if (pys "Stop:").isPrefixOf data then pys "Async stop notification: " ++ data.drop 5
  else pys "Notification: " ++ data

/-- `Dissector._dissect_error`. -/
def dissectError (data : PyStr) : PyStr :=
  let code := if data.length ≥ 3 then (data.take 3).drop 1 else data.drop 1
  match pyIntHex16 code with
  | some n => pys "Error " ++ intRepr n
  | none => pys "Error: " ++ data

/-- The keys of the `reg_names` dict in `_parse_stop_reply_details` (only
membership in the key set is ever used). -/
def stopRegNames : List String :=
  ["00", "01", "02", "03", "04", "05", "06", "07", "08", "09", "0a", "0b",
   "0c", "0d", "0e", "0f", "10", "11", "12", "13", "14", "15", "16", "17"]

/-- `[0-9a-f]`. -/
def isLowerHexChar (c : Char) : Bool := ('0' ≤ c && c ≤ '9') || ('a' ≤ c && c ≤ 'f')

/-- `re.match(r"^[0-9a-f]{1,2}$", s)` as a boolean (Python's `$` also matches
just before one trailing newline). -/
def matchHex12Line (s : PyStr) : Bool :=
  match s with
  | [a] => isLowerHexChar a
  | [a, b] => isLowerHexChar a && (isLowerHexChar b || b = '\n')
  | [a, b, c] => isLowerHexChar a && isLowerHexChar b && c = '\n'
  | _ => false

/-- Try `bytes.fromhex(s).decode("utf-8", errors="replace")`, falling back to
`s` itself when `fromhex` raises (the pattern used for hex-encoded names). -/
def hexDecodeOrKeep (s : PyStr) : PyStr :=
  match pyFromHex s with
  | some bs => utf8DecodeReplace bs
  | none => s

/-- One iteration of the item loop of `_parse_stop_reply_details`, acting on
the accumulator (parts, thread_id, stop_reason). -/
def stopDetailStep (acc : List PyStr × Option PyStr × Option PyStr) (item : PyStr) :
    List PyStr × Option PyStr × Option PyStr :=
  let parts := acc.1
  let threadId := acc.2.1
  let stopReason := acc.2.2
  if item = [] then acc
  else if ¬ item.contains ':' then (parts ++ [item], threadId, stopReason)
  else
    let kv := pySplitOnce ':' item
    let key := kv.1
    let value := kv.2.getD []
    let keyLower := key.map pyLower
    if keyLower = pys "thread" then (parts, some value, stopReason)
    else if keyLower = pys "watch" then
      (parts, threadId, some (pys "write watchpoint at 0x" ++ value))
    else if keyLower = pys "rwatch" then
      (parts, threadId, some (pys "read watchpoint at 0x" ++ value))
    else if keyLower = pys "awatch" then
      (parts, threadId, some (pys "access watchpoint at 0x" ++ value))
    else if keyLower = pys "swbreak" then (parts, threadId, some (pys "software breakpoint"))
    else if keyLower = pys "hwbreak" then (parts, threadId, some (pys "hardware breakpoint"))
    else if keyLower = pys "library" then (parts, threadId, some (pys "library event"))
    else if keyLower = pys "fork" then
      (parts, threadId, some (pys "fork (child=" ++ value ++ pys ")"))
    else if keyLower = pys "vfork" then
      (parts, threadId, some (pys "vfork (child=" ++ value ++ pys ")"))
    else if keyLower = pys "vforkdone" then (parts, threadId, some (pys "vfork done"))
    else if keyLower = pys "exec" then
      (parts, threadId, some (pys "exec (" ++ hexDecodeOrKeep value ++ pys ")"))
    else if keyLower = pys "create" then (parts, threadId, some (pys "thread created"))
    else if keyLower = pys "core" then (parts ++ [pys "core " ++ value], threadId, stopReason)
    else if stopRegNames.any (fun r => r.data = keyLower) then acc
    else if matchHex12Line keyLower then acc
    else (parts ++ [key ++ pys "=" ++ value], threadId, stopReason)

/-- `Dissector._parse_stop_reply_details`. -/
def parseStopReplyDetails (extra : PyStr) : PyStr :=
  let acc := (pySplit ';' (rstripSemis extra)).foldl stopDetailStep ([], none, none)
  let resultParts :=
    (match acc.2.2 with | some r => [r] | none => []) ++
    (match acc.2.1 with | some t => [pys "thread " ++ t] | none => []) ++ acc.1
  if resultParts = [] then [] else pyJoin (pys ", ") resultParts

/-- `Dissector._dissect_stop_reply`.  The two `int(data[1:3], 16)` calls are
not guarded, so a malformed signal field raises `ValueError`.  (The `[]` case
would be an `IndexError` in Python; it is unreachable because the response
dispatch only calls this with a non-empty payload.) -/
def dissectStopReply (data : PyStr) : Except PyErr PyStr :=
  match data with
  | [] => .error .valueError
  | c :: _ =>
    if c = 'S' then
      match pyIntHex16 ((data.take 3).drop 1) with
      | some sig => .ok (pys "Stopped: " ++ signalsGet sig)
      | none => .error .valueError
    else if c = 'T' then
      match pyIntHex16 ((data.take 3).drop 1) with
      | some sig =>
        let extra := data.drop 3
        if extra ≠ [] then
          let details := parseStopReplyDetails extra
          if details ≠ [] then
            .ok (pys "Stopped: " ++ signalsGet sig ++ pys " (" ++ details ++ pys ")")
          else .ok (pys "Stopped: " ++ signalsGet sig)
        else .ok (pys "Stopped: " ++ signalsGet sig)
      | none => .error .valueError
    else .ok (pys "Stop reply: " ++ data)

/-- `Dissector._dissect_exit_reply`. -/
def dissectExitReply (data : PyStr) : PyStr :=
  match pyIntHex16 (data.drop 1) with
  | some n => pys "Process exited with code " ++ intRepr n
  | none => pys "Process exited: " ++ data

/-- `Dissector._dissect_terminate_reply`. -/
def dissectTerminateReply (data : PyStr) : PyStr :=
  let sig := if data.length ≥ 3 then (data.take 3).drop 1 else data.drop 1
  match pyIntHex16 sig with
  | some n => pys "Process terminated by " ++ signalsGet n
  | none => pys "Process terminated: " ++ data

/-- `Dissector._dissect_console_output`. -/
def dissectConsoleOutput (data : PyStr) : PyStr :=
  let outputHex := data.drop 1
  match pyFromHex outputHex with
  | some bs => pys "Console: " ++ utf8DecodeReplace bs
  | none => pys "Console output (hex): " ++ outputHex

/-- The byte-counting loop of `_dissect_binary_memory_response`: a `}` that
has a byte after it counts as one byte for the pair. -/
def binEscapedCount : PyStr → Nat
  | [] => 0
  | c :: rest =>
    if c = '}' then
      match rest with
      | _ :: rest2 => 1 + binEscapedCount rest2
      | [] => 1
    else 1 + binEscapedCount rest

/-- `Dissector._dissect_binary_memory_response`. -/
def dissectBinaryMemoryResponse (data : PyStr) : PyStr :=
  pys "Binary data: " ++ natRepr (binEscapedCount (data.drop 1)) ++ pys " bytes"

/-- `Dissector._describe_file_data` (the source tests `"\x7fELF"` twice in
two spellings; they are the same string). -/
def describeFileData (fileData : PyStr) (byteCount : Int) : PyStr :=
  if fileData = [] then []
  else if (pys "MZ").isPrefixOf fileData then pys " (PE header)"
  else if (pys "\x7fELF").isPrefixOf fileData then pys " (ELF header)"
  else if byteCount > 0 then pys " (" ++ intRepr byteCount ++ pys " bytes)"
  else []

/-- `Dissector._dissect_file_io_response`. -/
def dissectFileIoResponse (data : PyStr) : PyStr :=
  if (pys "F-1").isPrefixOf data then
    let parts := pySplit ',' (data.drop 1)
    if parts.length ≥ 2 then
      pys "File error: errno " ++ (pySplit ';' (parts.getD 1 [])).headD []
    else pys "File error"
  else if (pys "F").isPrefixOf data then
    let sp := pySplitOnce ';' (data.drop 1)
    let result := (pySplit ',' sp.1).headD (pys "?")
    match pyIntHex16 result with
    | some n =>
      match sp.2 with
      | some fd => pys "File result: " ++ intRepr n ++ describeFileData fd n
      | none => pys "File result: " ++ intRepr n
    | none => pys "File result: " ++ result
  else pys "File response: " ++ data

/-- The `re.search(r"<(\w+)[\s>]", data)` scan of `_dissect_qxfer_response`:
first position with `<`, a non-empty word-character run, and then a
whitespace or `>`; returns the run. -/
def findXmlRoot : PyStr → Option PyStr
  | [] => none
  | c :: rest =>
    if c = '<' then
      let run := rest.takeWhile isPyWord
      if run.isEmpty then findXmlRoot rest
      else
        match rest.drop run.length with
        | a :: _ => if pyStrSpace a || a = '>' then some run else findXmlRoot rest
        | [] => findXmlRoot rest
    else findXmlRoot rest

/-- `Dissector._dissect_qxfer_response`. -/
def dissectQxferResponse (data : PyStr) (final : Bool) : PyStr :=
  let status := if final then pys "final" else pys "partial"
  if (pys "<?xml").isPrefixOf (pyLStrip data) ∨ (pys "<").isPrefixOf (pyLStrip data) then
    match findXmlRoot data with
    | some root =>
      pys "XML data (" ++ status ++ pys "): <" ++ root ++ pys "> (" ++
        natRepr data.length ++ pys " bytes)"
    | none => pys "XML data (" ++ status ++ pys "): " ++ natRepr data.length ++ pys " bytes"
  else pys "Transfer data (" ++ status ++ pys "): " ++ natRepr data.length ++ pys " bytes"

/-- `Dissector._dissect_thread_id_response`. -/
def dissectThreadIdResponse (data : PyStr) : PyStr :=
  if data.contains ',' then pys "Threads: " ++ pyJoin (pys ", ") (pySplit ',' data)
  else pys "Thread: " ++ data

/-- Python's `$` anchor: end of string, or just before one trailing newline. -/
def dollarEnd (s : PyStr) : Bool := s = [] || s = ['\n']

/-- `[0-9a-fA-F]+(\.[0-9a-fA-F]+)?$` of the thread-id pattern. -/
def matchThreadIdCore (s : PyStr) : Bool :=
  let digits := s.takeWhile isHexChar
  let rest := s.drop digits.length
  !digits.isEmpty &&
    (dollarEnd rest ||
      (match rest with
       | '.' :: r2 =>
         let d2 := r2.takeWhile isHexChar
         !d2.isEmpty && dollarEnd (r2.drop d2.length)
       | _ => false))

/-- `re.match(r"^p?[0-9a-fA-F]+(\.[0-9a-fA-F]+)?$", s)` as a boolean (a
leading `p`, being no hex digit, can only be consumed by the `p?`). -/
def matchThreadId (s : PyStr) : Bool :=
  match s with
  | 'p' :: r => matchThreadIdCore r
  | r => matchThreadIdCore r

/-- The per-action rendering of `_dissect_vcont_response`. -/
def vcontActionDesc (act : PyStr) : PyStr :=
  if act = pys "c" then pys "continue"
  else if act = pys "C" then pys "continue with signal"
  else if act = pys "s" then pys "step"
  else if act = pys "S" then pys "step with signal"
  else if act = pys "t" then pys "stop"
  else if act = pys "r" then pys "range step"
  else act

/-- `Dissector._dissect_vcont_response`. -/
def dissectVcontResponse (data : PyStr) : PyStr :=
  if data = pys "vCont" then pys "vCont supported (no actions listed)"
  else
    let actions := if (pys "vCont;").isPrefixOf data then data.drop 6 else data.drop 5
    let actionList := if actions ≠ [] then pySplit ';' actions else []
    pys "vCont supported: " ++ pyJoin (pys ", ") (actionList.map vcontActionDesc)

/-- The scan loop of `_is_rle_hex_data`. -/
def rleShapeOk : PyStr → Bool
  | [] => true
  | c :: rest =>
    if isHexChar c then rleShapeOk rest
    else if c = '*' then
      match rest with
      | c2 :: rest2 => if 32 ≤ c2.toNat && c2.toNat ≤ 126 then rleShapeOk rest2 else false
      | [] => false
    else false

/-- `Dissector._is_rle_hex_data`. -/
def isRleHexData (data : PyStr) : Bool := data.contains '*' && rleShapeOk data

/-- The `decoded_len` loop of `_dissect_rle_hex_data`: a character whose
successor is `*` contributes `ord(run_char) - 29` (it is absorbed by the
run), a standalone `*` skips its count character, anything else counts 1. -/
def rleDecodedLenAux : Nat → PyStr → Int
  | _, [] => 0
  | 0, _ :: _ => 0
  | fuel + 1, c1 :: rest1 =>
    match rest1 with
    | [] => if c1 = '*' then 0 else 1
    | c2 :: rest =>
      if c2 = '*' then
        match rest with
        | c3 :: rest2 => ((c3.toNat : Int) - 29) + rleDecodedLenAux fuel rest2
        | [] => 1 + rleDecodedLenAux fuel rest1
      else if c1 = '*' then rleDecodedLenAux fuel rest1
      else 1 + rleDecodedLenAux fuel rest1

/-- `decoded_len` of `_dissect_rle_hex_data` for the whole payload.  The
worker is structurally recursive on a fuel counter so that it reduces
definitionally; every loop step consumes at least one character, so fuel
equal to the input length never runs out. -/
def rleDecodedLen (data : PyStr) : Int := rleDecodedLenAux data.length data

/-- `Dissector._dissect_rle_hex_data` (reads the last-command slot). -/
def dissectRleHexData (lastCommand : Option PyStr) (data : PyStr) : PyStr :=
  let byteCount := Int.fdiv (rleDecodedLen data) 2
  let tail := intRepr byteCount ++ pys " bytes"
  match lastCommand with
  | some lc =>
    if pyTruthy lc then
      let cmd := lc.headD ' '
      if cmd = 'g' then pys "Registers: " ++ tail
      else if cmd = 'm' ∨ cmd = 'x' then pys "Memory: " ++ tail
      else if cmd = 'p' then pys "Register value: " ++ tail
      else pys "Data: " ++ tail
    else pys "Data: " ++ tail
  | none => pys "Data: " ++ tail

/-- The two-character grouping of `_dissect_hex_data`. -/
def hexPairs : PyStr → List PyStr
  | [] => []
  | [c] => [[c]]
  | c1 :: c2 :: rest => [c1, c2] :: hexPairs rest

/-- `Dissector._dissect_hex_data` (reads the last-command slot). -/
def dissectHexData (lastCommand : Option PyStr) (data : PyStr) : PyStr :=
  let byteCount := data.length / 2
  let label :=
    match lastCommand with
    | some lc =>
      if pyTruthy lc then
        let cmd := lc.headD ' '
        if cmd = 'g' then pys "Registers"
        else if cmd = 'm' ∨ cmd = 'x' then pys "Memory"
        else if cmd = 'p' then pys "Register value"
        else pys "Data"
      else pys "Data"
    | none => pys "Data"
  if byteCount ≤ 16 then label ++ pys ": " ++ pyJoin (pys " ") (hexPairs data)
  else label ++ pys ": " ++ natRepr byteCount ++ pys " bytes"

/-- The `\b\w+[:=]` search of `_is_key_value_data`: scan for a word-run that
starts at a word boundary and is directly followed by `:` or `=`. -/
def kvScanWord : Option Char → PyStr → Bool
  | _, [] => false
  | prev, c :: rest =>
    if (match prev with | none => true | some q => !isPyWord q) && isPyWord c then
      match rest.drop (rest.takeWhile isPyWord).length with
      | a :: _ => if a = ':' || a = '=' then true else kvScanWord (some c) rest
      | [] => kvScanWord (some c) rest
    else kvScanWord (some c) rest

/-- `Dissector._is_key_value_data`. -/
def isKeyValueData (data : PyStr) : Bool :=
  if !data.contains ':' && !data.contains ';' then false
  else if data.contains '*' then false
  else kvScanWord none data

/-- `re.split(r"[;,]", data)`. -/
def pySplitSemiComma : PyStr → List PyStr
  | [] => [[]]
  | c :: rest =>
    if c = ';' ∨ c = ',' then [] :: pySplitSemiComma rest
    else
      match pySplitSemiComma rest with
      | h :: t => (c :: h) :: t
      | [] => [[c]]

/-- The per-item rendering of `_dissect_key_value` (the `=`-containing and
the plain branches both return the item unchanged). -/
def kvItemDesc (item : PyStr) : PyStr :=
  if item.contains ':' then
    let kv := pySplitOnce ':' item
    kv.1 ++ pys "=" ++ kv.2.getD []
  else item

/-- `Dissector._dissect_key_value`. -/
def dissectKeyValue (data : PyStr) : PyStr :=
  pys "Features: " ++ pyJoin (pys ", ") ((pySplitSemiComma data).map kvItemDesc)

/-- `Dissector._dissect_response` (reads the last-command slot, never writes
it; can only raise through `_dissect_stop_reply`). -/
def dissectResponse (lastCommand : Option PyStr) (data : PyStr) : Except PyErr PyStr :=
  if data = [] then .ok (pys "Empty response")
  else if data = pys "OK" then .ok (pys "OK")
  else if data = [] then .ok (pys "Empty response (command not supported)")
  else if data = pys "l" then .ok (pys "End of list")
  else if (pys "l").isPrefixOf data ∧ data.length > 1 then
    .ok (dissectQxferResponse (data.drop 1) true)
  else if (pys "m").isPrefixOf data ∧ data.length > 1 then
    let rest := data.drop 1
    if matchThreadId rest then .ok (dissectThreadIdResponse rest)
    else .ok (dissectQxferResponse rest false)
  else if (pys "E").isPrefixOf data then .ok (dissectError data)
  else
    match data with
    | [] => .ok (pys "Empty response")
    | c :: _ =>
      if c = 'S' ∨ c = 'T' then dissectStopReply data
      else if c = 'W' then .ok (dissectExitReply data)
      else if c = 'X' then .ok (dissectTerminateReply data)
      else if c = 'O' then .ok (dissectConsoleOutput data)
      else if c = 'F' then .ok (dissectFileIoResponse data)
      else if c = 'b' then .ok (dissectBinaryMemoryResponse data)
      else if (pys "QC").isPrefixOf data then .ok (pys "Current thread: " ++ data.drop 2)
      else if (pys "vCont").isPrefixOf data then .ok (dissectVcontResponse data)
      else if data.all isHexChar then .ok (dissectHexData lastCommand data)
      else if isRleHexData data then .ok (dissectRleHexData lastCommand data)
      else if isKeyValueData data then .ok (dissectKeyValue data)
      else .ok (pys "Response: " ++ data)

/-! ### dissector.py — command-side helpers -/

/-- Split off a maximal run of `[0-9a-fA-F]`. -/
def takeHexRun (s : PyStr) : PyStr × PyStr := (s.takeWhile isHexChar, s.dropWhile isHexChar)

/-- Value of a non-empty pure-hex run (the guarded `int(g, 16)` on a regex
group matched by `[0-9a-fA-F]+`, which cannot raise). -/
def hexRunVal (digits : PyStr) : Nat :=
  digits.foldl (fun acc c => 16 * acc + (hexDigitVal c).getD 0) 0

/-- `re.match` of `([0-9a-fA-F]+),([0-9a-fA-F]+)` against `s` (prefix match;
the character classes exclude the delimiters, so maximal munch is exact). -/
def matchHexCommaHex (s : PyStr) : Option (PyStr × PyStr) :=
  let a := takeHexRun s
  if a.1.isEmpty then none
  else
    match a.2 with
    | ',' :: r2 =>
      let b := takeHexRun r2
      if b.1.isEmpty then none else some (a.1, b.1)
    | _ => none

/-- `re.match` of `([0-9a-fA-F]+),([0-9a-fA-F]+):` against `s`. -/
def matchHexCommaHexColon (s : PyStr) : Option (PyStr × PyStr) :=
  let a := takeHexRun s
  if a.1.isEmpty then none
  else
    match a.2 with
    | ',' :: r2 =>
      let b := takeHexRun r2
      if b.1.isEmpty then none
      else
        match b.2 with
        | ':' :: _ => some (a.1, b.1)
        | _ => none
    | _ => none

/-- `re.match` of `([0-9a-fA-F]+)=([0-9a-fA-F]+)` against `s`. -/
def matchHexEqHex (s : PyStr) : Option (PyStr × PyStr) :=
  let a := takeHexRun s
  if a.1.isEmpty then none
  else
    match a.2 with
    | '=' :: r2 =>
      let b := takeHexRun r2
      if b.1.isEmpty then none else some (a.1, b.1)
    | _ => none

/-- `Dissector._dissect_read_memory`. -/
def dissectReadMemory (data : PyStr) : PyStr :=
  match (match data with | 'm' :: rest => matchHexCommaHex rest | _ => none) with
  | some (addr, l) => pys "Read " ++ natRepr (hexRunVal l) ++ pys " bytes from 0x" ++ addr
  | none => pys "Read memory: " ++ data

/-- `Dissector._dissect_write_memory`. -/
def dissectWriteMemory (data : PyStr) : PyStr :=
  match (match data with | 'M' :: rest => matchHexCommaHexColon rest | _ => none) with
  | some (addr, l) => pys "Write " ++ natRepr (hexRunVal l) ++ pys " bytes to 0x" ++ addr
  | none => pys "Write memory: " ++ data

/-- `Dissector._dissect_read_memory_binary`. -/
def dissectReadMemoryBinary (data : PyStr) : PyStr :=
  match (match data with | 'x' :: rest => matchHexCommaHex rest | _ => none) with
  | some (addr, l) =>
    pys "Read " ++ natRepr (hexRunVal l) ++ pys " bytes (binary) from 0x" ++ addr
  | none => pys "Read memory (binary): " ++ data

/-- `Dissector._dissect_write_memory_binary`. -/
def dissectWriteMemoryBinary (data : PyStr) : PyStr :=
  match (match data with | 'X' :: rest => matchHexCommaHexColon rest | _ => none) with
  | some (addr, l) =>
    pys "Write " ++ natRepr (hexRunVal l) ++ pys " bytes (binary) to 0x" ++ addr
  | none => pys "Write memory (binary): " ++ data

/-- `Dissector._dissect_write_registers` (`len(data) - 1` hex chars). -/
def dissectWriteRegisters (data : PyStr) : PyStr :=
  pys "Write all registers (" ++ intRepr ((data.length : Int) - 1) ++ pys " hex chars)"

/-- `Dissector._dissect_read_register` (its `int` is guarded by try/except). -/
def dissectReadRegister (data : PyStr) : PyStr :=
  let reg := data.drop 1
  match pyIntHex16 reg with
  | some n => pys "Read register " ++ intRepr n
  | none => pys "Read register: " ++ reg

/-- `Dissector._dissect_write_register`. -/
def dissectWriteRegister (data : PyStr) : PyStr :=
  match (match data with | 'P' :: rest => matchHexEqHex rest | _ => none) with
  | some (reg, val) =>
    pys "Write register " ++ natRepr (hexRunVal reg) ++ pys " = 0x" ++ val
  | none => pys "Write register: " ++ data

/-- `Dissector._dissect_continue`. -/
def dissectContinue (data : PyStr) : PyStr :=
  if data.length > 1 then pys "Continue at 0x" ++ data.drop 1 else pys "Continue"

/-- `re.match` of `([0-9a-fA-F]{2})(?:;([0-9a-fA-F]+))?` after the command
letter: exactly two hex digits, then an optional `;`-introduced non-empty hex
group (when the optional part cannot match it matches nothing). -/
def matchSignalAddr (s : PyStr) : Option (PyStr × Option PyStr) :=
  match s with
  | c1 :: c2 :: rest =>
    if isHexChar c1 && isHexChar c2 then
      some ([c1, c2],
        match rest with
        | ';' :: r2 =>
          let run := r2.takeWhile isHexChar
          if run.isEmpty then none else some run
        | _ => none)
    else none
  | _ => none

/-- `Dissector._dissect_continue_signal`. -/
def dissectContinueSignal (data : PyStr) : PyStr :=
  match (match data with | 'C' :: rest => matchSignalAddr rest | _ => none) with
  | some (sigChars, addrOpt) =>
    let sigName := signalsGet (hexRunVal sigChars)
    match addrOpt with
    | some addr => pys "Continue with " ++ sigName ++ pys " at 0x" ++ addr
    | none => pys "Continue with " ++ sigName
  | none => pys "Continue with signal: " ++ data

/-- `Dissector._dissect_step`. -/
def dissectStep (data : PyStr) : PyStr :=
  if data.length > 1 then pys "Single step at 0x" ++ data.drop 1 else pys "Single step"

/-- `Dissector._dissect_step_signal`. -/
def dissectStepSignal (data : PyStr) : PyStr :=
  match (match data with | 'S' :: rest => matchSignalAddr rest | _ => none) with
  | some (sigChars, addrOpt) =>
    let sigName := signalsGet (hexRunVal sigChars)
    match addrOpt with
    | some addr => pys "Step with " ++ sigName ++ pys " at 0x" ++ addr
    | none => pys "Step with " ++ sigName
  | none => pys "Step with signal: " ++ data

/-- `re.match` of `([0-4]),([0-9a-fA-F]+),([0-9a-fA-F]+)` after the `Z`/`z`
letter. -/
def matchBreakpointArgs (s : PyStr) : Option (Char × PyStr × PyStr) :=
  match s with
  | t :: ',' :: r2 =>
    if '0' ≤ t && t ≤ '4' then
      match matchHexCommaHex r2 with
      | some (addr, kind) => some (t, addr, kind)
      | none => none
    else none
  | _ => none

/-- `Dissector._dissect_insert_breakpoint`. -/
def dissectInsertBreakpoint (data : PyStr) : PyStr :=
  match (match data with | 'Z' :: rest => matchBreakpointArgs rest | _ => none) with
  | some (t, addr, _) =>
    pys "Insert " ++ breakpointTypesGet (t.toNat - 48) [t] ++ pys " at 0x" ++ addr
  | none => pys "Insert breakpoint: " ++ data

/-- `Dissector._dissect_remove_breakpoint`. -/
def dissectRemoveBreakpoint (data : PyStr) : PyStr :=
  match (match data with | 'z' :: rest => matchBreakpointArgs rest | _ => none) with
  | some (t, addr, _) =>
    pys "Remove " ++ breakpointTypesGet (t.toNat - 48) [t] ++ pys " at 0x" ++ addr
  | none => pys "Remove breakpoint: " ++ data

/-- `Dissector._dissect_detach`. -/
def dissectDetach (data : PyStr) : PyStr :=
  if data.length > 1 then
    let pid := data.drop 1
    let pid2 := if (pys ";").isPrefixOf pid then pid.drop 1 else pid
    pys "Detach from process " ++ pid2
  else pys "Detach"

/-- `Dissector._dissect_set_thread`. -/
def dissectSetThread (data : PyStr) : PyStr :=
  if data.length > 1 then
    let op := (data.drop 1).headD ' '
    let thread := data.drop 2
    let opName :=
      if op = 'g' then pys "general ops"
      else if op = 'c' then pys "continue ops"
      else [op]
    if thread = pys "-1" ∨ thread = pys "0" then
      pys "Set thread for " ++ opName ++ pys ": all threads"
    else pys "Set thread for " ++ opName ++ pys ": " ++ thread
  else pys "Set thread: " ++ data

/-- The per-action rendering of `_dissect_vcont` (a `vCont` command). -/
def vcontActionPart (action : PyStr) : PyStr :=
  let sp := pySplitOnce ':' action
  let act := sp.1
  let actBase : PyStr := match act with | c :: _ => [c] | [] => []
  let actName := vcontActionsGet actBase act
  match sp.2 with
  | some t => if pyTruthy t then actName ++ pys " thread " ++ t else actName
  | none => actName

/-- `Dissector._dissect_vcont`. -/
def dissectVcont (data : PyStr) : PyStr :=
  if data = pys "vCont?" then pys "Query vCont support"
  else
    let actions := data.drop 6
    if actions = [] then pys "vCont (no actions)"
    else pys "vCont: " ++ pyJoin (pys ", ") ((pySplit ';' actions).map vcontActionPart)

/-- `Dissector._dissect_vkill`. -/
def dissectVkill (data : PyStr) : PyStr :=
  let pid := if data.length > 6 then data.drop 6 else []
  if pyTruthy pid then pys "Kill process " ++ pid else pys "Kill process"

/-- `Dissector._dissect_vfile`.  The `int(count, 16)` / `int(offset, 16)`
calls of the `pread`/`pwrite` branches are not guarded, so malformed hex
there raises `ValueError`. -/
def dissectVfile (data : PyStr) : Except PyErr PyStr :=
  let parts := pySplit ':' data
  if parts.length < 2 then .ok (pys "File operation: " ++ data)
  else
    let op := parts.getD 1 []
    let args := if parts.length > 2 then pyJoin (pys ":") (parts.drop 2) else []
    if op = pys "setfs" then
      .ok (pys "Set file system to pid " ++ (if pyTruthy args then args else pys "0"))
    else if op = pys "open" then
      let openParts := pySplit ',' args
      if openParts.length ≥ 1 then
        let filename := hexDecodeOrKeep (openParts.headD [])
        let flags := if openParts.length > 1 then openParts.getD 1 [] else pys "?"
        let mode := if openParts.length > 2 then openParts.getD 2 [] else pys "?"
        .ok (pys "Open file: " ++ filename ++ pys " (flags=0x" ++ flags ++
          pys ", mode=0o" ++ mode ++ pys ")")
      else .ok (pys "Open file: " ++ args)
    else if op = pys "close" then .ok (pys "Close file descriptor " ++ args)
    else if op = pys "pread" then
      let preadParts := pySplit ',' args
      if preadParts.length ≥ 3 then
        match pyIntHex16 (preadParts.getD 1 []), pyIntHex16 (preadParts.getD 2 []) with
        | some c, some o =>
          .ok (pys "Read " ++ intRepr c ++ pys " bytes from fd " ++ preadParts.getD 0 [] ++
            pys " at offset " ++ intRepr o)
        | _, _ => .error .valueError
      else .ok (pys "Read from file: " ++ args)
    else if op = pys "pwrite" then
      let pwriteParts := pySplit ',' args
      if pwriteParts.length ≥ 2 then
        match pyIntHex16 (pwriteParts.getD 1 []) with
        | some o =>
          .ok (pys "Write to fd " ++ pwriteParts.getD 0 [] ++ pys " at offset " ++ intRepr o)
        | none => .error .valueError
      else .ok (pys "Write to file: " ++ args)
    else if op = pys "fstat" then .ok (pys "Get file status for fd " ++ args)
    else if op = pys "stat" then .ok (pys "Get file status: " ++ hexDecodeOrKeep args)
    else if op = pys "unlink" then .ok (pys "Delete file: " ++ hexDecodeOrKeep args)
    else if op = pys "readlink" then .ok (pys "Read symlink: " ++ hexDecodeOrKeep args)
    else if op = pys "mkdir" then
      let mkdirParts := pySplit ',' args
      if mkdirParts ≠ [] then
        .ok (pys "Create directory: " ++ hexDecodeOrKeep (mkdirParts.headD []))
      else .ok (pys "Create directory: " ++ args)
    else .ok (pys "File operation " ++ op ++ pys ": " ++ args)

/-- `Dissector._dissect_vflash_erase`. -/
def dissectVflashErase (data : PyStr) : PyStr :=
  match (if (pys "vFlashErase:").isPrefixOf data then matchHexCommaHex (data.drop 12)
    else none) with
  | some (addr, l) =>
    pys "Flash erase " ++ natRepr (hexRunVal l) ++ pys " bytes at 0x" ++ addr
  | none => pys "Flash erase: " ++ data.drop 12

/-- `Dissector._dissect_vflash_write`. -/
def dissectVflashWrite (data : PyStr) : PyStr :=
  match (if (pys "vFlashWrite:").isPrefixOf data then
      (let a := takeHexRun (data.drop 12)
       if a.1.isEmpty then none
       else match a.2 with
         | ':' :: _ => some a.1
         | _ => none)
    else none) with
  | some addr => pys "Flash write at 0x" ++ addr
  | none => pys "Flash write: " ++ data.drop 12

/-- `Dissector._dissect_v_command`: first match in the insertion order of the
`_v_handlers` dict (so `vCont?` is always taken by the `vCont` entry). -/
def dissectVCommand (data : PyStr) : Except PyErr PyStr :=
  if (pys "vCont").isPrefixOf data then .ok (dissectVcont data)
  else if (pys "vCont?").isPrefixOf data then .ok (pys "Query vCont support")
  else if (pys "vKill").isPrefixOf data then .ok (dissectVkill data)
  else if (pys "vRun").isPrefixOf data then .ok (pys "Run program: " ++ data.drop 5)
  else if (pys "vAttach").isPrefixOf data then .ok (pys "Attach to process " ++ data.drop 8)
  else if (pys "vStopped").isPrefixOf data then .ok (pys "Acknowledge stop notification")
  else if (pys "vMustReplyEmpty").isPrefixOf data then .ok (pys "Must reply empty (probe)")
  else if (pys "vFile:").isPrefixOf data then dissectVfile data
  else if (pys "vFlashErase").isPrefixOf data then .ok (dissectVflashErase data)
  else if (pys "vFlashWrite").isPrefixOf data then .ok (dissectVflashWrite data)
  else if (pys "vFlashDone").isPrefixOf data then .ok (pys "Flash write complete")
  else .ok (pys "Extended command: " ++ data)

/-- `Dissector._dissect_qsupported`. -/
def dissectQsupported (data : PyStr) : PyStr :=
  let features := if data.length > 11 then data.drop 11 else []
  if pyTruthy features then
    pys "Query supported features: " ++ pyJoin (pys ", ") (pySplit ';' features)
  else pys "Query supported features"

/-- The object-name table of `_dissect_qxfer`. -/
def qxferObjDesc (obj : PyStr) : PyStr :=
  if obj = pys "features" then pys "target features"
  else if obj = pys "libraries" then pys "loaded libraries"
  else if obj = pys "memory-map" then pys "memory map"
  else if obj = pys "threads" then pys "thread info"
  else if obj = pys "auxv" then pys "auxiliary vector"
  else if obj = pys "exec-file" then pys "executable filename"
  else if obj = pys "osdata" then pys "OS data"
  else if obj = pys "siginfo" then pys "signal info"
  else if obj = pys "spu" then pys "SPU data"
  else if obj = pys "traceframe-info" then pys "traceframe info"
  else obj

/-- Split off a maximal run of `[^:]`. -/
def takeNonColon (s : PyStr) : PyStr × PyStr := (s.takeWhile (· ≠ ':'), s.dropWhile (· ≠ ':'))

/-- `re.match` of `qXfer:([^:]+):read:([^:]*):([0-9a-fA-F]+),([0-9a-fA-F]+)`. -/
def matchQxferRead (data : PyStr) : Option (PyStr × PyStr × PyStr × PyStr) :=
  if (pys "qXfer:").isPrefixOf data then
    let o := takeNonColon (data.drop 6)
    if o.1.isEmpty then none
    else if (pys ":read:").isPrefixOf o.2 then
      let a := takeNonColon (o.2.drop 6)
      match a.2 with
      | ':' :: r3 =>
        match matchHexCommaHex r3 with
        | some (off, l) => some (o.1, a.1, off, l)
        | none => none
      | _ => none
    else none
  else none

/-- `re.match` of `qXfer:([^:]+):write:([^:]*):([0-9a-fA-F]+):`. -/
def matchQxferWrite (data : PyStr) : Option (PyStr × PyStr × PyStr) :=
  if (pys "qXfer:").isPrefixOf data then
    let o := takeNonColon (data.drop 6)
    if o.1.isEmpty then none
    else if (pys ":write:").isPrefixOf o.2 then
      let a := takeNonColon (o.2.drop 7)
      match a.2 with
      | ':' :: r3 =>
        let h := takeHexRun r3
        if h.1.isEmpty then none
        else
          match h.2 with
          | ':' :: _ => some (o.1, a.1, h.1)
          | _ => none
      | _ => none
    else none
  else none

/-- `Dissector._dissect_qxfer`. -/
def dissectQxfer (data : PyStr) : PyStr :=
  match matchQxferRead data with
  | some (obj, annex, off, l) =>
    let objDesc := qxferObjDesc obj
    if pyTruthy annex then
      pys "Read " ++ objDesc ++ pys ":" ++ annex ++ pys " (offset=0x" ++ off ++
        pys ", len=0x" ++ l ++ pys ")"
    else
      pys "Read " ++ objDesc ++ pys " (offset=0x" ++ off ++ pys ", len=0x" ++ l ++ pys ")"
  | none =>
    match matchQxferWrite data with
    | some (obj, annex, off) =>
      pys "Write " ++ obj ++ pys ":" ++ annex ++ pys " at offset 0x" ++ off
    | none => pys "Transfer: " ++ data.drop 6

/-- `Dissector._dissect_qrcmd` (strict ascii decode, guarded by try/except). -/
def dissectQrcmd (data : PyStr) : PyStr :=
  let cmdHex := data.drop 6
  match pyFromHex cmdHex with
  | some bs =>
    match asciiDecode bs with
    | some cmd => pys "Remote command: " ++ cmd
    | none => pys "Remote command (hex): " ++ cmdHex
  | none => pys "Remote command (hex): " ++ cmdHex

/-- `Dissector._dissect_qattached`. -/
def dissectQattached (data : PyStr) : PyStr :=
  if data.length > 9 then pys "Query if attached to process " ++ data.drop 10
  else pys "Query if attached to existing process"

/-- `Dissector._dissect_qthreadinfo` (serves both `qfThreadInfo` and
`qsThreadInfo`). -/
def dissectQthreadinfo (data : PyStr) : PyStr :=
  if (pys "qf").isPrefixOf data then pys "Query first thread info"
  else pys "Query next thread info"

/-- `Dissector._dissect_qsymbol`. -/
def dissectQsymbol (data : PyStr) : PyStr :=
  if data = pys "qSymbol::" then pys "Symbol lookup ready"
  else pys "Symbol query: " ++ data.drop 8

/-- `Dissector._dissect_q_command`: first match in the insertion order of the
`_q_handlers` dict, then the `qL` special case, then a generic label. -/
def dissect_q_command (data : PyStr) : PyStr :=
  if (pys "qSupported").isPrefixOf data then dissectQsupported data
  else if (pys "qXfer").isPrefixOf data then dissectQxfer data
  else if (pys "qRcmd").isPrefixOf data then dissectQrcmd data
  else if (pys "qC").isPrefixOf data then pys "Query current thread ID"
  else if (pys "qAttached").isPrefixOf data then dissectQattached data
  else if (pys "qOffsets").isPrefixOf data then pys "Query section offsets"
  else if (pys "qfThreadInfo").isPrefixOf data then dissectQthreadinfo data
  else if (pys "qsThreadInfo").isPrefixOf data then dissectQthreadinfo data
  else if (pys "qSymbol").isPrefixOf data then dissectQsymbol data
  else if (pys "qTStatus").isPrefixOf data then pys "Query trace status"
  else if (pys "qRegisterInfo").isPrefixOf data then
    pys "Query register " ++ data.drop 13 ++ pys " info"
  else if (pys "qHostInfo").isPrefixOf data then pys "Query host info"
  else if (pys "qProcessInfo").isPrefixOf data then pys "Query process info"
  else if (pys "qMemoryRegionInfo").isPrefixOf data then
    pys "Query memory region at 0x" ++ data.drop 18
  else if (pys "qL").isPrefixOf data then pys "Query thread list"
  else pys "Query: " ++ data

/-- `Dissector._dissect_Q_command`. -/
def dissect_Q_command (data : PyStr) : PyStr :=
  if (pys "QStartNoAckMode").isPrefixOf data then pys "Enable no-ack mode"
  else if (pys "QNonStop").isPrefixOf data then
    let val := if data.length > 9 then data.drop 9 else []
    pys "Set non-stop mode: " ++
      (if val = pys "1" then pys "enabled" else if val = pys "0" then pys "disabled" else val)
  else if (pys "QPassSignals").isPrefixOf data then
    let signals := if data.length > 13 then data.drop 13 else []
    if pyTruthy signals then pys "Pass signals to program: " ++ signals
    else pys "Clear pass signals"
  else if (pys "QProgramSignals").isPrefixOf data then
    let signals := if data.length > 16 then data.drop 16 else []
    if pyTruthy signals then pys "Program signals: " ++ signals
    else pys "Clear program signals"
  else if (pys "QThreadEvents").isPrefixOf data then
    let val := if data.length > 14 then data.drop 14 else []
    pys "Thread events: " ++
      (if val = pys "1" then pys "enabled" else if val = pys "0" then pys "disabled" else val)
  else if (pys "QCatchSyscalls").isPrefixOf data then
    let val := if data.length > 15 then data.drop 15 else []
    if val = pys "0" then pys "Disable syscall catching" else pys "Catch syscalls: " ++ val
  else if (pys "QSetWorkingDir").isPrefixOf data then
    let dirHex := if data.length > 15 then data.drop 15 else []
    if pyTruthy dirHex then
      match pyFromHex dirHex with
      | some bs => pys "Set working directory: " ++ utf8DecodeReplace bs
      | none => pys "Clear working directory"
    else pys "Clear working directory"
  else if (pys "QEnvironmentHexEncoded").isPrefixOf data then
    let envHex := if data.length > 23 then data.drop 23 else []
    match pyFromHex envHex with
    | some bs => pys "Set environment: " ++ utf8DecodeReplace bs
    | none => pys "Set environment (hex): " ++ envHex
  else if (pys "QEnvironmentReset").isPrefixOf data then pys "Reset environment"
  else if (pys "QDisableRandomization").isPrefixOf data then
    let val := if data.length > 22 then data.drop 22 else []
    pys "ASLR: " ++
      (if val = pys "1" then pys "disabled" else if val = pys "0" then pys "enabled" else val)
  else pys "Set: " ++ data

/-- `Dissector._dissect_command`: dispatch on the first character (the
`_command_handlers` dict), then `v`/`q`/`Q`, then a generic label. -/
def dissectCommand (data : PyStr) : Except PyErr PyStr :=
  match data with
  | [] => .ok (pys "Empty command")
  | cmd :: _ =>
    if cmd = 'm' then .ok (dissectReadMemory data)
    else if cmd = 'M' then .ok (dissectWriteMemory data)
    else if cmd = 'x' then .ok (dissectReadMemoryBinary data)
    else if cmd = 'X' then .ok (dissectWriteMemoryBinary data)
    else if cmd = 'g' then .ok (pys "Read all registers")
    else if cmd = 'G' then .ok (dissectWriteRegisters data)
    else if cmd = 'p' then .ok (dissectReadRegister data)
    else if cmd = 'P' then .ok (dissectWriteRegister data)
    else if cmd = 'c' then .ok (dissectContinue data)
    else if cmd = 'C' then .ok (dissectContinueSignal data)
    else if cmd = 's' then .ok (dissectStep data)
    else if cmd = 'S' then .ok (dissectStepSignal data)
    else if cmd = 'Z' then .ok (dissectInsertBreakpoint data)
    else if cmd = 'z' then .ok (dissectRemoveBreakpoint data)
    else if cmd = '?' then .ok (pys "Query halt reason")
    else if cmd = 'k' then .ok (pys "Kill target")
    else if cmd = 'D' then .ok (dissectDetach data)
    else if cmd = '!' then .ok (pys "Enable extended mode")
    else if cmd = 'H' then .ok (dissectSetThread data)
    else if cmd = 'T' then .ok (pys "Check if thread " ++ data.drop 1 ++ pys " is alive")
    else if cmd = 'R' then .ok (pys "Restart program")
    else if cmd = 'v' then dissectVCommand data
    else if cmd = 'q' then .ok (dissect_q_command data)
    else if cmd = 'Q' then .ok (dissect_Q_command data)
    else .ok (pys "Unknown command: " ++ data)

/-- The `Dissector` object state: the one-slot last-command memory. -/
structure Dissector where
  lastCommand : Option PyStr := none
  deriving DecidableEq, Repr

/-- A freshly constructed `Dissector`. -/
def Dissector.init : Dissector := {}

/-- `Dissector.dissect`: returns the description (or the raised exception)
together with the dissector state after the call.  The non-response packet
branch assigns `_last_command` before dispatching, so the slot is updated
even if the command dissection raises. -/
def Dissector.dissect (d : Dissector) (p : Packet) (isResponse : Bool) :
    Except PyErr PyStr × Dissector :=
  match p.type with
  | .ack => (.ok (pys "ACK"), d)
  | .nack => (.ok (pys "NACK (request retransmission)"), d)
  | .interrupt => (.ok (pys "Interrupt (Ctrl-C)"), d)
  | .notification => (.ok (dissectNotification (dataStr p.data)), d)
  | .packet =>
    let data := dataStr p.data
    if data = [] then (.ok (pys "Empty packet"), d)
    else if isResponse then (dissectResponse d.lastCommand data, d)
    else (dissectCommand data, { d with lastCommand := some data })

/-! ### Claim-side definitions and proof infrastructure -/

/-- The claim's notion of one unit of a valid RLE payload (claim C3): a data
character, optionally carrying a run `*<count>`. -/
inductive RleItem where
  | plain (d : Char)
  | run (d : Char) (count : Char)
  deriving DecidableEq, Repr

/-- Well-formedness of an item per the claim's grammar: the data character is
a hex digit and a run count character is printable ASCII 32..126. -/
def RleItem.wf : RleItem → Bool
  | .plain d => isHexChar d
  | .run d c => isHexChar d && (32 ≤ c.toNat && c.toNat ≤ 126)

/-- The payload spelled by a list of grammar items. -/
def rleRender : List RleItem → PyStr
  | [] => []
  | .plain d :: t => d :: rleRender t
  | .run d c :: t => d :: '*' :: c :: rleRender t

/-- The claim's expansion count: every data character once, plus
`ord(count) − 29` additional repeats for each run. -/
def rleExpandedLen : List RleItem → Nat
  | [] => 0
  | .plain _ :: t => 1 + rleExpandedLen t
  | .run _ c :: t => 1 + (c.toNat - 29) + rleExpandedLen t

/-- Number of `*<count>` runs among the items. -/
def rleRunCount : List RleItem → Nat
  | [] => 0
  | .plain _ :: t => rleRunCount t
  | .run _ _ :: t => 1 + rleRunCount t

/-- The label the claim C7 says the last-command memory selects for data
blobs ("g" gives Registers, "m"/"x" Memory, "p" Register value, anything
else Data). -/
def contextLabel : Option PyStr → PyStr
  | none => pys "Data"
  | some [] => pys "Data"
  | some (c :: _) =>
    if c = 'g' then pys "Registers"
    else if c = 'm' ∨ c = 'x' then pys "Memory"
    else if c = 'p' then pys "Register value"
    else pys "Data"

/-- Bound check on the parse of a two-character checksum field, used to
establish the checksum range by exhausting the ASCII pairs. -/
def hexPairBoundOk (c1 c2 : Char) : Bool :=
  match pyIntHex16 [c1, c2] with
  | some v => decide (-15 ≤ v ∧ v ≤ 255)
  | none => true

/-- Invariant of every reachable parser state: entering the checksum states
always goes through the `#` transition, which clears the checksum-character
buffer, so that buffer is empty in `checksum1` and a singleton in
`checksum2`. -/
def ParserChk (p : PacketParser) : Prop :=
  (p.state = .checksum1 → p.checksumChars = []) ∧
  (p.state = .checksum2 → p.checksumChars.length = 1)

/-! ## Theorems -/

theorem feed_append (p : PacketParser) (a b : List Nat) :
    feed p (a ++ b) =
      ((feed (feed p a).1 b).1, (feed p a).2 ++ (feed (feed p a).1 b).2) := by
  induction a generalizing p with
  | nil => simp [feed]
  | cons x xs ih => simp [feed, ih, List.append_assoc]

theorem feedChunks_eq_feed_join (p : PacketParser) (parts : List (List Nat)) :
    feedChunks p parts = feed p parts.flatten := by
  induction parts generalizing p with
  | nil => simp [feedChunks, feed]
  | cons c cs ih => simp [feedChunks, ih, feed_append]

theorem flatten_map_singleton (B : List Nat) : (B.map fun b => [b]).flatten = B := by
  induction B with
  | nil => simp
  | cons x xs ih => simp [ih]

/-- C4: feeding a byte sequence `B` to one `PacketParser` in any chunking
produces exactly the same parser result — the same frame sequence (kinds,
payloads, checksums, raw bytes, validity flags) and the same final state —
as feeding `B` one byte at a time. -/
theorem parser_chunk_invariance (p : PacketParser) (parts : List (List Nat))
    (B : List Nat) (h : parts.flatten = B) :
    feedChunks p parts = feed p B ∧ feedChunks p (B.map fun b => [b]) = feed p B := by
  constructor
  · rw [← h, feedChunks_eq_feed_join]
  · rw [feedChunks_eq_feed_join, flatten_map_singleton]

/-- Witness for C4 at a concrete chunking of `+$g#67`. -/
theorem parser_chunk_invariance_witness :
    ([[43], bytesOf "$g", bytesOf "#67"] : List (List Nat)).flatten = bytesOf "+$g#67" ∧
    feedChunks PacketParser.init [[43], bytesOf "$g", bytesOf "#67"] =
      feed PacketParser.init (bytesOf "+$g#67") ∧
    feedChunks PacketParser.init ((bytesOf "+$g#67").map fun b => [b]) =
      feed PacketParser.init (bytesOf "+$g#67") := by
  refine ⟨by decide, ?_, ?_⟩
  · exact (parser_chunk_invariance PacketParser.init [[43], bytesOf "$g", bytesOf "#67"]
      (bytesOf "+$g#67") (by decide)).1
  · exact (parser_chunk_invariance PacketParser.init [[43], bytesOf "$g", bytesOf "#67"]
      (bytesOf "+$g#67") (by decide)).2

/-- C9: while the parser is in the `InPacket` state, the byte `#` (35) ends
the payload unconditionally: it moves the parser to the first checksum state
and is not appended to the payload buffer, whatever the buffer holds — in
particular also when the previous payload byte was the escape byte `}`. -/
theorem hash_ends_payload_unconditionally (p : PacketParser)
    (h : p.state = .inPacket) :
    processByte p 35 =
      ({ p with
          state := .checksum1, rawBuffer := p.rawBuffer ++ [35],
          checksumChars := [] }, none) := by
  simp [processByte, h]

/-- Witness for C9: a buffer whose last payload byte is `}` (125). -/
theorem hash_ends_payload_unconditionally_witness :
    processByte ⟨.inPacket, bytesOf "g\x7d", [], false, bytesOf "$g\x7d"⟩ 35 =
      (⟨.checksum1, bytesOf "g\x7d", [], false, bytesOf "$g\x7d" ++ [35]⟩, none) :=
  hash_ends_payload_unconditionally ⟨.inPacket, bytesOf "g\x7d", [], false, bytesOf "$g\x7d"⟩ rfl

/-- Counterexample to C5 as stated: after `$#zz` the two checksum characters
are not valid hex and the checksum is treated as 0, but `valid_checksum` is
`true` (the empty payload's computed checksum is also 0); and after
`$\x05#+5` the characters `+5` are not two hex digits yet the parsed
checksum is 5, not 0 (Python's `int(s, 16)` accepts a sign). -/
theorem checksum_invalid_hex_cex :
    (runParser (bytesOf "$#zz")).2 =
      [{ type := .packet, data := [], checksum := 0, raw := bytesOf "$#zz",
         valid_checksum := true }] ∧
    (runParser (bytesOf "$\x05#+5")).2 =
      [{ type := .packet, data := [5], checksum := 5, raw := bytesOf "$\x05#+5",
         valid_checksum := true }] := by decide

/-- C5 amended: when the two checksum characters fail to parse under
Python's `int(·, 16)` (which also accepts an optional sign and surrounding
whitespace, so this is strictly weaker than "not two hex digits"), the
transmitted checksum is treated as 0 and `valid_checksum` is true exactly
when the payload's computed checksum is 0 — hence false whenever the payload
sum mod 256 is non-zero. -/
theorem checksum_parse_failure_amended (p : PacketParser) (b : Nat)
    (h1 : p.state = .checksum2)
    (h2 : pyIntHexAscii (p.checksumChars ++ [b]) = none) :
    (processByte p b).2 =
      some { type := if p.isNotification then .notification else .packet,
             data := p.buffer, checksum := 0, raw := p.rawBuffer ++ [b],
             valid_checksum := decide ((compute_checksum p.buffer : Int) = 0) } := by
  simp [processByte, h1, h2]

/-- Witness for C5 at the `$#zz` final byte. -/
theorem checksum_parse_failure_amended_witness :
    (processByte ⟨.checksum2, [], [122], false, bytesOf "$#z"⟩ 122).2 =
      some { type := .packet, data := [], checksum := 0,
             raw := bytesOf "$#z" ++ [122],
             valid_checksum := decide ((compute_checksum [] : Int) = 0) } :=
  checksum_parse_failure_amended ⟨.checksum2, [], [122], false, bytesOf "$#z"⟩ 122
    rfl (by decide)

/-- Counterexample to C6 as stated: the frame emitted for `$#-f` carries
checksum −15, which is not in 0..255 (Python's `int("-f", 16)` is −15). -/
theorem checksum_byte_range_cex :
    (runParser (bytesOf "$#-f")).2 =
      [{ type := .packet, data := [], checksum := -15, raw := bytesOf "$#-f",
         valid_checksum := false }] ∧
    ¬ (0 ≤ (-15 : Int)) := by decide

theorem parserChk_init : ParserChk PacketParser.init :=
  ⟨fun h => absurd h (by decide), fun h => absurd h (by decide)⟩

theorem parserChk_step (p : PacketParser) (b : Nat) (h : ParserChk p) :
    ParserChk (processByte p b).1 := by
  obtain ⟨h1, h2⟩ := h
  cases hs : p.state with
  | idle =>
    simp only [processByte, hs]
    split_ifs <;> constructor <;> intro hx <;> simp_all
  | inPacket =>
    simp only [processByte, hs]
    split_ifs <;> constructor <;> intro hx <;> simp_all
  | checksum1 =>
    simp only [processByte, hs]
    constructor <;> intro hx
    · simp at hx
    · simp [h1 hs]
  | checksum2 =>
    simp only [processByte, hs]
    constructor <;> intro hx <;> simp at hx

set_option maxHeartbeats 4000000 in
set_option maxRecDepth 10000 in
theorem hexPairBound_holds : ∀ a : Fin 128, ∀ c : Fin 128,
    hexPairBoundOk (Char.ofNat a.val) (Char.ofNat c.val) = true := by decide

theorem pyIntHexAscii_pair_bound (x y : Nat) (v : Int)
    (h : pyIntHexAscii [x, y] = some v) : -15 ≤ v ∧ v ≤ 255 := by
  by_cases hall : ([x, y].all (· < 128)) = true
  · have hx : x < 128 := by simpa using (List.all_eq_true.mp hall x (by simp))
    have hy : y < 128 := by simpa using (List.all_eq_true.mp hall y (by simp))
    have hb := hexPairBound_holds ⟨x, hx⟩ ⟨y, hy⟩
    unfold hexPairBoundOk at hb
    unfold pyIntHexAscii at h
    rw [if_pos hall] at h
    simp only [List.map] at h
    rw [h] at hb
    simpa using hb
  · unfold pyIntHexAscii at h
    rw [if_neg hall] at h
    exact absurd h (by simp)

theorem processByte_frame_bound (p : PacketParser) (b : Nat) (f : Packet)
    (hc : ParserChk p) (he : (processByte p b).2 = some f) :
    -15 ≤ f.checksum ∧ f.checksum ≤ 255 := by
  cases hs : p.state with
  | idle =>
    simp only [processByte, hs] at he
    split_ifs at he <;> simp at he <;> rw [← he] <;>
      exact ⟨by norm_num, by norm_num⟩
  | inPacket =>
    simp only [processByte, hs] at he
    split_ifs at he
  | checksum1 =>
    simp [processByte, hs] at he
  | checksum2 =>
    obtain ⟨x, hx⟩ := List.length_eq_one.mp (hc.2 hs)
    simp only [processByte, hs] at he
    rw [hx] at he
    cases hv : pyIntHexAscii ([x] ++ [b]) with
    | none =>
      rw [hv] at he
      simp at he
      rw [← he]
      exact ⟨by norm_num, by norm_num⟩
    | some v =>
      rw [hv] at he
      simp at he
      rw [← he]
      simpa using pyIntHexAscii_pair_bound x b v hv

theorem feed_frames_bound (B : List Nat) :
    ∀ p : PacketParser, ParserChk p →
      ∀ f ∈ (feed p B).2, -15 ≤ f.checksum ∧ f.checksum ≤ 255 := by
  induction B with
  | nil => intro p hp f hf; simp [feed] at hf
  | cons b rest ih =>
    intro p hp f hf
    simp only [feed] at hf
    rw [List.mem_append] at hf
    rcases hf with hf | hf
    · cases ho : (processByte p b).2 with
      | none => rw [ho] at hf; simp at hf
      | some g =>
        rw [ho] at hf
        simp at hf
        subst hf
        exact processByte_frame_bound p b f hp ho
    · exact ih (processByte p b).1 (parserChk_step p b hp) f hf

/-- C6 amended: for every frame emitted by a parser run from the initial
state, the checksum is an integer in −15..255.  It is not always in 0..255:
checksum characters `-` followed by a hex digit parse to a negative value
(see the counterexample), and that digit bound makes −15 the minimum. -/
theorem checksum_range_amended (B : List Nat) (f : Packet)
    (hf : f ∈ (runParser B).2) : -15 ≤ f.checksum ∧ f.checksum ≤ 255 :=
  feed_frames_bound B PacketParser.init parserChk_init f hf

/-- Witness for C6 at the run over `$#-f`. -/
theorem checksum_range_amended_witness :
    (⟨.packet, [], -15, bytesOf "$#-f", false⟩ : Packet) ∈ (runParser (bytesOf "$#-f")).2 ∧
    (-15 ≤ (⟨.packet, [], -15, bytesOf "$#-f", false⟩ : Packet).checksum ∧
      (⟨.packet, [], -15, bytesOf "$#-f", false⟩ : Packet).checksum ≤ 255) :=
  ⟨by decide, checksum_range_amended (bytesOf "$#-f") _ (by decide)⟩

/-- C1 is violated by the code: the dissector raises `ValueError` on the
response stop replies `T` and `Szz` (unguarded `int(data[1:3], 16)` in
`_dissect_stop_reply`) and on the command `vFile:pread:1,zz,0` (unguarded
`int(count, 16)` in `_dissect_vfile`), instead of returning a string. -/
theorem dissector_not_total_on_stop_replies :
    (Dissector.dissect .init ⟨.packet, bytesOf "T", 0, [], true⟩ true).1 =
      .error .valueError ∧
    (Dissector.dissect .init ⟨.packet, bytesOf "Szz", 0, [], true⟩ true).1 =
      .error .valueError ∧
    (Dissector.dissect .init ⟨.packet, bytesOf "vFile:pread:1,zz,0", 0, [], true⟩ false).1 =
      .error .valueError := by decide

/-- Counterexample to C2 as stated: an empty-payload Packet dissected as a
response yields `Empty packet` (the empty check in `dissect` runs before the
response branch), not `Empty response (command not supported)`. -/
theorem empty_response_label_cex :
    (Dissector.dissect .init ⟨.packet, [], 0, [], true⟩ true).1 =
      .ok (pys "Empty packet") ∧
    pys "Empty packet" ≠ pys "Empty response (command not supported)" := by decide

/-- C2 amended: for every Packet frame with empty payload, `dissect` returns
`Empty packet` whatever `is_response` is, and leaves the state unchanged. -/
theorem empty_payload_dissects_to_empty_packet (d : Dissector) (p : Packet)
    (b : Bool) (h1 : p.type = .packet) (h2 : p.data = []) :
    Dissector.dissect d p b = (.ok (pys "Empty packet"), d) := by
  simp [Dissector.dissect, h1, h2, dataStr]

/-- Witness for C2 at the empty response packet. -/
theorem empty_payload_dissects_to_empty_packet_witness :
    Dissector.dissect .init ⟨.packet, [], 0, [], true⟩ true =
      (.ok (pys "Empty packet"), .init) :=
  empty_payload_dissects_to_empty_packet .init ⟨.packet, [], 0, [], true⟩ true rfl rfl

/-- C8: a response call (`is_response = true`) never updates the one-slot
command memory, and therefore dissecting the same response again — with no
intervening command — gives the same result and the same state. -/
theorem response_calls_preserve_memory (d : Dissector) (p : Packet) :
    (Dissector.dissect d p true).2 = d ∧
    Dissector.dissect ((Dissector.dissect d p true).2) p true =
      Dissector.dissect d p true := by
  have h : ∀ dd : Dissector, (Dissector.dissect dd p true).2 = dd := by
    intro dd
    cases hp : p.type <;> simp only [Dissector.dissect, hp]
    all_goals first
      | rfl
      | (split <;> rfl)
  exact ⟨h d, by rw [h d]⟩

/-- C10: dissecting an Ack, Nack, Interrupt or Notification frame, or a
Packet frame with empty payload, leaves the last-command memory unchanged
for either value of `is_response`; only a non-empty Packet dissected as a
command overwrites it (with the packet's payload string). -/
theorem last_command_update_rule (d : Dissector) (p : Packet) (b : Bool) :
    (p.type ≠ .packet → (Dissector.dissect d p b).2 = d) ∧
    (p.data = [] → (Dissector.dissect d p b).2 = d) ∧
    (p.type = .packet → p.data ≠ [] →
      (Dissector.dissect d p false).2 = { lastCommand := some (dataStr p.data) }) := by
  refine ⟨?_, ?_, ?_⟩
  · intro hne
    cases hp : p.type
    case packet => exact absurd hp hne
    all_goals simp [Dissector.dissect, hp]
  · intro hd
    cases hp : p.type <;> simp [Dissector.dissect, hp, hd, dataStr]
  · intro hp hne
    have hne2 : dataStr p.data ≠ [] := by
      simpa [dataStr] using hne
    simp only [Dissector.dissect, hp]
    rw [if_neg hne2]
    rfl

/-- Witness for C10 at an Ack frame, an empty Packet, and the command `g`. -/
theorem last_command_update_rule_witness :
    (Dissector.dissect .init ⟨.ack, [], 0, [43], true⟩ false).2 = .init ∧
    (Dissector.dissect .init ⟨.packet, [], 0, [], true⟩ false).2 = .init ∧
    (Dissector.dissect .init ⟨.packet, bytesOf "g", 0, [], true⟩ false).2 =
      { lastCommand := some (dataStr (bytesOf "g")) } :=
  ⟨(last_command_update_rule .init ⟨.ack, [], 0, [43], true⟩ false).1 (by decide),
   (last_command_update_rule .init ⟨.packet, [], 0, [], true⟩ false).2.1 rfl,
   (last_command_update_rule .init ⟨.packet, bytesOf "g", 0, [], true⟩ false).2.2 rfl
     (by decide)⟩

/-- Counterexample to C7 as stated: after the command `g`, the all-hex
response `00` (one byte, at most 16) is rendered as `Registers: 00` — the
label is selected as claimed, but the rendering is the hex-pair form, not
`Registers: <n> bytes` (which would be `Registers: 1 bytes` here). -/
theorem response_blob_label_cex :
    (Dissector.dissect
        ((Dissector.dissect .init ⟨.packet, bytesOf "g", 0, [], true⟩ false).2)
        ⟨.packet, bytesOf "00", 0, [], true⟩ true).1 = .ok (pys "Registers: 00") ∧
    pys "Registers: 00" ≠ pys "Registers: 1 bytes" := by decide

/-- C7 amended: for hex and RLE data blobs the label is selected by the
first byte of the memorized command exactly as claimed (`g` Registers,
`m`/`x` Memory, `p` Register value, anything else — including no memorized
command — Data); RLE blobs are always rendered `<label>: <n> bytes`, while
all-hex blobs use that form only above 16 bytes and otherwise spell the hex
pairs.  The claim's own example holds: `00000000*"00000000` after a prior
`g` dissects to `Registers: 10 bytes`. -/
theorem response_blob_label_amended :
    (∀ (lc : Option PyStr) (data : PyStr),
      dissectRleHexData lc data =
        contextLabel lc ++ pys ": " ++
          (intRepr (Int.fdiv (rleDecodedLen data) 2) ++ pys " bytes")) ∧
    (∀ (lc : Option PyStr) (data : PyStr), data.length / 2 ≤ 16 →
      dissectHexData lc data =
        contextLabel lc ++ pys ": " ++ pyJoin (pys " ") (hexPairs data)) ∧
    (∀ (lc : Option PyStr) (data : PyStr), 16 < data.length / 2 →
      dissectHexData lc data =
        contextLabel lc ++ pys ": " ++ natRepr (data.length / 2) ++ pys " bytes") ∧
    (Dissector.dissect
        ((Dissector.dissect .init ⟨.packet, bytesOf "g", 0, [], true⟩ false).2)
        ⟨.packet, bytesOf "00000000*\"00000000", 0, [], true⟩ true).1 =
      .ok (pys "Registers: 10 bytes") := by
  refine ⟨?_, ?_, ?_, by decide⟩
  · intro lc data
    match lc with
    | none => rfl
    | some [] => rfl
    | some (c :: cs) =>
      have ht : pyTruthy (c :: cs) = true := by simp [pyTruthy]
      simp only [dissectRleHexData, contextLabel, ht, if_true, List.headD_cons]
      split_ifs <;> rfl
  · intro lc data hle
    match lc with
    | none =>
      simp only [dissectHexData, contextLabel]
      rw [if_pos hle]
    | some [] =>
      simp only [dissectHexData, contextLabel]
      rw [if_pos hle]
      rfl
    | some (c :: cs) =>
      have ht : pyTruthy (c :: cs) = true := by simp [pyTruthy]
      simp only [dissectHexData, contextLabel, ht, if_true, List.headD_cons]
      rw [if_pos hle]
  · intro lc data hlt
    have hnle : ¬ data.length / 2 ≤ 16 := by omega
    match lc with
    | none =>
      simp only [dissectHexData, contextLabel]
      rw [if_neg hnle]
    | some [] =>
      simp only [dissectHexData, contextLabel]
      rw [if_neg hnle]
      rfl
    | some (c :: cs) =>
      have ht : pyTruthy (c :: cs) = true := by simp [pyTruthy]
      simp only [dissectHexData, contextLabel, ht, if_true, List.headD_cons]
      rw [if_neg hnle]

/-- Witness for C7: the RLE rendering after a `p` command and a short hex
blob after an `m` command, at concrete inputs. -/
theorem response_blob_label_amended_witness :
    dissectRleHexData (some (pys "p10")) (pys "0*\"") =
      contextLabel (some (pys "p10")) ++ pys ": " ++
        (intRepr (Int.fdiv (rleDecodedLen (pys "0*\"")) 2) ++ pys " bytes") ∧
    dissectHexData (some (pys "m10,2")) (pys "abcd") =
      contextLabel (some (pys "m10,2")) ++ pys ": " ++
        pyJoin (pys " ") (hexPairs (pys "abcd")) ∧
    dissectHexData none (pys "00112233445566778899001122334455667788") =
      contextLabel none ++ pys ": " ++
        natRepr ((pys "00112233445566778899001122334455667788").length / 2) ++
        pys " bytes" :=
  ⟨response_blob_label_amended.1 (some (pys "p10")) (pys "0*\""),
   response_blob_label_amended.2.1 (some (pys "m10,2")) (pys "abcd") (by decide),
   response_blob_label_amended.2.2.1 none
     (pys "00112233445566778899001122334455667788") (by decide)⟩

theorem rleRender_eq_nil {items : List RleItem} : rleRender items = [] ↔ items = [] := by
  cases items with
  | nil => simp [rleRender]
  | cons i t => cases i <;> simp [rleRender]

theorem rleRender_head_hex (items : List RleItem) (h : ∀ i ∈ items, i.wf = true)
    (c : Char) (rest : PyStr) (hr : rleRender items = c :: rest) :
    isHexChar c = true := by
  cases items with
  | nil => simp [rleRender] at hr
  | cons i t =>
    have hw := h i (List.mem_cons_self i t)
    cases i with
    | plain d =>
      simp only [rleRender] at hr
      rw [← (List.cons.injEq ..).mp hr |>.1]
      exact hw
    | run d cc =>
      simp only [RleItem.wf, Bool.and_eq_true] at hw
      simp only [rleRender] at hr
      rw [← (List.cons.injEq ..).mp hr |>.1]
      exact hw.1

theorem isHexChar_ne_star {c : Char} (h : isHexChar c = true) : c ≠ '*' := by
  intro he
  subst he
  exact absurd h (by decide)

theorem rleAux_render (items : List RleItem) :
    ∀ fuel : Nat, (∀ i ∈ items, i.wf = true) → (rleRender items).length ≤ fuel →
      rleDecodedLenAux fuel (rleRender items) =
        (rleExpandedLen items : Int) - rleRunCount items := by
  induction items with
  | nil =>
    intro fuel h hf
    cases fuel <;> simp [rleRender, rleDecodedLenAux, rleExpandedLen, rleRunCount]
  | cons i t ih =>
    intro fuel h hf
    have hwf : i.wf = true := h i (List.mem_cons_self i t)
    have ht : ∀ j ∈ t, j.wf = true := fun j hj => h j (List.mem_cons.mpr (Or.inr hj))
    cases i with
    | plain d =>
      have hdne : d ≠ '*' := isHexChar_ne_star hwf
      rw [show rleRender (.plain d :: t) = d :: rleRender t from rfl] at hf ⊢
      cases fuel with
      | zero => simp at hf
      | succ fuel =>
        cases hrt : rleRender t with
        | nil =>
          have ht0 : t = [] := rleRender_eq_nil.mp hrt
          subst ht0
          simp [rleDecodedLenAux, hdne, rleExpandedLen, rleRunCount, rleRender]
        | cons c2 rest =>
          have hc2ne : c2 ≠ '*' :=
            isHexChar_ne_star (rleRender_head_hex t ht c2 rest hrt)
          have hstep : rleDecodedLenAux (fuel + 1) (d :: c2 :: rest) =
              1 + rleDecodedLenAux fuel (c2 :: rest) := by
            simp [rleDecodedLenAux, hc2ne, hdne]
          rw [hstep, ← hrt]
          have hlen : (rleRender t).length ≤ fuel := by
            rw [hrt] at hf ⊢
            simp only [List.length_cons] at hf ⊢
            omega
          rw [ih fuel ht hlen]
          simp only [rleExpandedLen, rleRunCount]
          push_cast
          ring
    | run d c =>
      simp only [RleItem.wf, Bool.and_eq_true, decide_eq_true_eq] at hwf
      obtain ⟨hd, hc32, _⟩ := hwf
      rw [show rleRender (.run d c :: t) = d :: '*' :: c :: rleRender t from rfl] at hf ⊢
      cases fuel with
      | zero => simp at hf
      | succ fuel =>
        have hstep : rleDecodedLenAux (fuel + 1) (d :: '*' :: c :: rleRender t) =
            ((c.toNat : Int) - 29) + rleDecodedLenAux fuel (rleRender t) := rfl
        rw [hstep]
        have hlen : (rleRender t).length ≤ fuel := by
          simp only [List.length_cons] at hf
          omega
        rw [ih fuel ht hlen]
        simp only [rleExpandedLen, rleRunCount]
        have hcast : ((c.toNat - 29 : Nat) : Int) = (c.toNat : Int) - 29 := by omega
        push_cast [hcast]
        ring

/-- C3 amended: for every payload in the claim's RLE grammar, the decoded
length computed by `_dissect_rle_hex_data` is the claim's expanded character
count minus the number of runs — each data character directly followed by
`*` contributes only its `ord(count) − 29` repeats, its own occurrence being
dropped — and so the reported byte count is half of that difference, not
half of the expanded count. -/
theorem rle_decoded_len_amended (items : List RleItem) (h : ∀ i ∈ items, i.wf = true) :
    rleDecodedLen (rleRender items) =
      (rleExpandedLen items : Int) - rleRunCount items ∧
    dissectRleHexData none (rleRender items) =
      pys "Data: " ++
        (intRepr (Int.fdiv ((rleExpandedLen items : Int) - rleRunCount items) 2) ++
          pys " bytes") := by
  have h1 : rleDecodedLen (rleRender items) =
      (rleExpandedLen items : Int) - rleRunCount items :=
    rleAux_render items (rleRender items).length h le_rfl
  refine ⟨h1, ?_⟩
  simp only [dissectRleHexData, h1]

/-- Witness for C3 at the one-item payload `0*"`. -/
theorem rle_decoded_len_amended_witness :
    rleDecodedLen (rleRender [RleItem.run '0' '"']) =
      (rleExpandedLen [RleItem.run '0' '"'] : Int) - rleRunCount [RleItem.run '0' '"'] ∧
    dissectRleHexData none (rleRender [RleItem.run '0' '"']) =
      pys "Data: " ++
        (intRepr (Int.fdiv
            ((rleExpandedLen [RleItem.run '0' '"'] : Int) -
              rleRunCount [RleItem.run '0' '"']) 2) ++
          pys " bytes") :=
  rle_decoded_len_amended [RleItem.run '0' '"'] (by decide)

/-- Counterexample to C3 as stated: the payload `0*"` is a valid RLE payload
(data character `0` with run count `"`, ord 34), its expanded character
count is 1 + (34 − 29) = 6, so the claim predicts 6 / 2 = 3 bytes, but the
dissector reports `Data: 2 bytes`. -/
theorem rle_byte_count_cex :
    rleRender [RleItem.run '0' '"'] = pys "0*\"" ∧
    isRleHexData (pys "0*\"") = true ∧
    rleExpandedLen [RleItem.run '0' '"'] = 6 ∧
    (Dissector.dissect .init ⟨.packet, bytesOf "0*\"", 0, [], true⟩ true).1 =
      .ok (pys "Data: 2 bytes") ∧
    (6 : Nat) / 2 = 3 ∧
    pys "Data: 2 bytes" ≠ pys "Data: 3 bytes" := by decide

end GdbProxy
